import Mathlib

/-!
Shallow embedding of the serverless request handler in src/handler.py.

The handler starts a local ComfyUI server, waits for it to become healthy
(wait_for_comfyui), submits a workflow to the /prompt endpoint and polls the
/history endpoint (process_workflow), and shapes the result into a response
envelope (handler).  Network and filesystem effects are modelled by explicit
environments: a response for each probe / poll attempt, a result for the one
submission POST, and a partial map from file paths to byte lists.  Python
exceptions are modelled with Except String; envelopes (Python dicts) are
modelled as association lists of string key/value pairs, so that the shape
of each returned value is a provable fact rather than a typing artifact.
-/

/-- Configuration constant, handler.py line 24. -/
def MAX_STARTUP_RETRIES : Nat := 120

/-- Configuration constant, handler.py line 25. -/
def STARTUP_RETRY_INTERVAL : Nat := 5

/-- Configuration constant, handler.py line 26. -/
def MAX_PROCESSING_RETRIES : Nat := 600

/-- Configuration constant, handler.py line 27. -/
def PROCESSING_RETRY_INTERVAL : Nat := 2

/-! Base64 (RFC 4648, the encoding used by Python base64.b64encode at
handler.py line 179).  Bytes are Nat values below 256. -/

/-- The 64-character base64 alphabet. -/
def b64Alphabet : List Char :=
  ['A', 'B', 'C', 'D', 'E', 'F', 'G', 'H', 'I', 'J', 'K', 'L', 'M',
   'N', 'O', 'P', 'Q', 'R', 'S', 'T', 'U', 'V', 'W', 'X', 'Y', 'Z',
   'a', 'b', 'c', 'd', 'e', 'f', 'g', 'h', 'i', 'j', 'k', 'l', 'm',
   'n', 'o', 'p', 'q', 'r', 's', 't', 'u', 'v', 'w', 'x', 'y', 'z',
   '0', '1', '2', '3', '4', '5', '6', '7', '8', '9', '+', '/']

/-- Map a sextet value (0..63) to its base64 character. -/
def sextetToChar (n : Nat) : Char := b64Alphabet.getD n 'A'

/-- Map a base64 character back to its sextet value. -/
def charToSextet (c : Char) : Nat := b64Alphabet.indexOf c

/-- Regroup bytes (three at a time) into sextets, as base64 encoding does. -/
def bytesToSextets : List Nat → List Nat
  | b0 :: b1 :: b2 :: rest =>
      b0 / 4 :: ((b0 % 4) * 16 + b1 / 16) :: ((b1 % 16) * 4 + b2 / 64) ::
        (b2 % 64) :: bytesToSextets rest
  | [b0, b1] => [b0 / 4, (b0 % 4) * 16 + b1 / 16, (b1 % 16) * 4]
  | [b0] => [b0 / 4, (b0 % 4) * 16]
  | [] => []

/-- Padding characters appended by base64 encoding. -/
def b64PadChars (B : List Nat) : List Char :=
  match B.length % 3 with
  | 1 => ['=', '=']
  | 2 => ['=']
  | _ => []

/-- Character list of the base64 encoding of a byte list. -/
def b64EncodeChars (B : List Nat) : List Char :=
  (bytesToSextets B).map sextetToChar ++ b64PadChars B

/-- Base64 encoding of a byte list, as a string. -/
def b64encode (B : List Nat) : String := String.mk (b64EncodeChars B)

/-- Regroup sextets (four at a time) back into bytes, as base64 decoding does. -/
def sextetsToBytes : List Nat → List Nat
  | s0 :: s1 :: s2 :: s3 :: rest =>
      (s0 * 4 + s1 / 16) :: ((s1 % 16) * 16 + s2 / 4) :: ((s2 % 4) * 64 + s3) ::
        sextetsToBytes rest
  | [s0, s1, s2] => [s0 * 4 + s1 / 16, (s1 % 16) * 16 + s2 / 4]
  | [s0, s1] => [s0 * 4 + s1 / 16]
  | _ => []

/-- Base64 decoding of a character list: drop padding, invert the alphabet,
regroup sextets into bytes. -/
def b64DecodeChars (cs : List Char) : List Nat :=
  sextetsToBytes ((cs.filter (fun c => c != '=')).map charToSextet)

/-- Base64 decoding of a string. -/
def b64decode (s : String) : List Nat := b64DecodeChars s.data

/-! Data model of the history endpoint response (handler.py lines 158-204). -/

/-- Response envelope: a Python dict with string keys and values, modelled as
an association list so the returned shape is inspectable. -/
abbrev Envelope := List (String × String)

/-- Error envelope, the uniform failure shape of handler.py. -/
def errEnv (message : String) : Envelope :=
  [("status", "error"), ("message", message)]

/-- Success envelope built at handler.py lines 181-185. -/
def successEnv (video execId : String) : Envelope :=
  [("status", "success"), ("video", video), ("execution_id", execId)]

/-- The inner status record of a history entry:
execution_data.get("status", {}) with its "status" and "message" fields. -/
structure StatusRec where
  status : Option String
  message : Option String
  deriving DecidableEq

/-- One artifact descriptor in a node output: carries a filename. -/
structure Video where
  filename : String
  deriving DecidableEq

/-- One node output record; the "videos" key may be absent. -/
structure NodeOutput where
  videos : Option (List Video)
  deriving DecidableEq

/-- One history entry for a job: optional "outputs" mapping (node id to node
output) and optional "status" record. -/
structure ExecutionData where
  outputs : Option (List (String × NodeOutput))
  status : Option StatusRec
  deriving DecidableEq

/-- Python execution_data.get("status", {}).get("status"). -/
def statusOf (ed : ExecutionData) : Option String :=
  ed.status.bind (fun s => s.status)

/-- Python execution_data.get("status", {}).get("message"). -/
def messageOf (ed : ExecutionData) : Option String :=
  ed.status.bind (fun s => s.message)

/-- Outcome of one GET /history request: a transport or parse exception
(caught at handler.py line 208), or a history mapping. -/
inductive PollResponse where
  | exn
  | ok (history : List (String × ExecutionData))
  deriving DecidableEq

/-- Outcome of scanning the outputs mapping for node "24"
(handler.py lines 169-189): a returned envelope, a raised exception
(indexing an empty videos list at line 172), or no match. -/
inductive ScanResult where
  | ret (e : Envelope)
  | raised
  | notFound
  deriving DecidableEq

/-- Shared filesystem path of an artifact, handler.py line 173. -/
def outputPath (v : Video) : String := "/workspace/ComfyUI/output/" ++ v.filename

/-- Scan the outputs mapping in order for node id "24" carrying a "videos"
key, handler.py lines 169-189.  A matching node with a nonempty videos list
returns an envelope (success, or a read error from the shared filesystem);
a matching node with an empty videos list raises IndexError; any other node
is skipped. -/
def scanOutputs (fs : String → Except String (List Nat)) (execId : String) :
    List (String × NodeOutput) → ScanResult
  | [] => ScanResult.notFound
  | (nid, nout) :: rest =>
    if nid = "24" then
      match nout.videos with
      | some (v :: _) =>
        match fs (outputPath v) with
        | Except.ok bytes => ScanResult.ret (successEnv (b64encode bytes) execId)
        | Except.error e => ScanResult.ret (errEnv ("Error reading output video: " ++ e))
      | some [] => ScanResult.raised
      | none => scanOutputs fs execId rest
    else scanOutputs fs execId rest

/-- Outcome of one poll iteration: return an envelope, or continue polling. -/
inductive IterResult where
  | ret (e : Envelope)
  | cont
  deriving DecidableEq

/-- One iteration of the polling loop body, handler.py lines 157-209.
An exception anywhere in the iteration is caught and polling continues. -/
def pollIter (fs : String → Except String (List Nat)) (execId : String)
    (resp : PollResponse) : IterResult :=
  match resp with
  | PollResponse.exn => IterResult.cont
  | PollResponse.ok history =>
    match history.lookup execId with
    | none => IterResult.cont
    | some ed =>
      if ed.outputs.isSome ∧ statusOf ed = some "success" then
        match scanOutputs fs execId (ed.outputs.getD []) with
        | ScanResult.ret e => IterResult.ret e
        | ScanResult.raised => IterResult.cont
        | ScanResult.notFound => IterResult.ret (errEnv "No output video found in results")
      else if statusOf ed = some "error" then
        IterResult.ret (errEnv ((messageOf ed).getD "Unknown error in workflow processing"))
      else IterResult.cont

/-- Timeout message, handler.py line 213 (600 retries of 2 seconds). -/
def timeoutMsg : String :=
  "Timeout waiting for results after " ++
    toString (MAX_PROCESSING_RETRIES * PROCESSING_RETRY_INTERVAL) ++ " seconds"

/-- The polling loop, handler.py lines 156-215: run iterations on successive
poll responses until one returns or the budget is exhausted.  The second
component counts the poll attempts performed. -/
def pollLoop (fs : String → Except String (List Nat)) (execId : String)
    (resps : Nat → PollResponse) : Nat → Nat → Envelope × Nat
  | _, 0 => (errEnv timeoutMsg, 0)
  | i, fuel + 1 =>
    match pollIter fs execId (resps i) with
    | IterResult.ret e => (e, 1)
    | IterResult.cont =>
      match pollLoop fs execId resps (i + 1) fuel with
      | (e, n) => (e, n + 1)

/-! Workflow data model and submission (handler.py lines 120-151, 218-259). -/

/-- A workflow node: its "inputs" mapping.  Only the "image" input is ever
read or written by the handler; input values are modelled as strings. -/
structure Node where
  inputs : List (String × String)
  deriving DecidableEq

/-- A workflow: a mapping from node-identifier strings to node records. -/
abbrev Workflow := List (String × Node)

/-- Body of the submission POST, handler.py lines 130-137: the workflow under
"prompt" and an echo of it under extra_data.extra_pnginfo.workflow. -/
structure PostBody where
  prompt : Workflow
  workflowEcho : Workflow
  deriving DecidableEq

/-- Response of the submission POST: HTTP status code, body text, and the
"prompt_id" field when the body parses and carries one. -/
structure SubmitResponse where
  statusCode : Nat
  text : String
  promptId : Option String
  deriving DecidableEq

/-- Environment of process_workflow: the submission result (Except.error
models requests.exceptions.RequestException), the sequence of poll
responses, and the shared filesystem. -/
structure PWEnv where
  submit : PostBody → Except String SubmitResponse
  polls : Nat → PollResponse
  fs : String → Except String (List Nat)

/-- Result of process_workflow: the returned envelope or a raised exception,
the list of POST bodies issued, and the number of poll attempts performed. -/
structure PWResult where
  result : Except String Envelope
  posts : List PostBody
  polls : Nat

/-- The submit-and-poll stage, handler.py lines 120-215.  A transport error
on the POST is re-raised as Exception (line 151); a non-200 status raises
(line 144); a body without "prompt_id" raises KeyError (line 146); otherwise
the polling loop runs and its envelope is returned (never raised past). -/
def process_workflow (env : PWEnv) (workflow_data : Workflow) : PWResult :=
  let body : PostBody := ⟨workflow_data, workflow_data⟩
  match env.submit body with
  | Except.error e =>
      ⟨Except.error ("Error sending workflow to ComfyUI: " ++ e), [body], 0⟩
  | Except.ok resp =>
      if resp.statusCode ≠ 200 then
        ⟨Except.error ("Failed to queue workflow: " ++ resp.text), [body], 0⟩
      else
        match resp.promptId with
        | none => ⟨Except.error "KeyError: prompt_id", [body], 0⟩
        | some execution_id =>
          match pollLoop env.fs execution_id env.polls 0 MAX_PROCESSING_RETRIES with
          | (e, n) => ⟨Except.ok e, [body], n⟩

/-- The incoming event, handler.py lines 223-224: event.get("input", {})
.get("workflow") and .get("image", "").  A missing image is the empty
string, exactly as the Python default makes it. -/
structure Event where
  workflow : Option Workflow
  image : String

/-- Environment of the handler: the default-workflow file read
(handler.py lines 229-230) and the process_workflow environment. -/
structure HandlerEnv where
  defaultWorkflow : Except String Workflow
  penv : PWEnv

/-- Python truthiness of the workflow value at handler.py line 227:
absent or an empty mapping is falsy. -/
def truthyWF : Option Workflow → Bool
  | none => false
  | some w => !w.isEmpty

/-- Python dict assignment d[k] = v on an association list: replace in
place, or append when the key is new. -/
def setKey (k v : String) : List (String × String) → List (String × String)
  | [] => [(k, v)]
  | (k0, v0) :: rest => if k0 = k then (k, v) :: rest else (k0, v0) :: setKey k v rest

/-- Mutation at handler.py line 241: workflow_data["58"]["inputs"]["image"]
is set to the input image. -/
def setNodeImage (wf : Workflow) (img : String) : Workflow :=
  wf.map (fun p => if p.1 = "58" then (p.1, ⟨setKey "image" img p.2.inputs⟩) else p)

/-- The request handler, handler.py lines 218-259.  Returns the envelope and
the list of POST bodies issued to the submission endpoint.  Every exception
raised below it (modelled Except.error) is converted to an error envelope. -/
def handler (henv : HandlerEnv) (ev : Event) : Envelope × List PostBody :=
  let loaded : Except String Workflow :=
    if truthyWF ev.workflow then Except.ok (ev.workflow.getD [])
    else henv.defaultWorkflow
  match loaded with
  | Except.error e => (errEnv ("Error loading default workflow: " ++ e), [])
  | Except.ok workflow_data =>
    if ev.image ≠ "" then
      if (workflow_data.lookup "58").isSome then
        match process_workflow henv.penv (setNodeImage workflow_data ev.image) with
        | ⟨Except.ok e, ps, _⟩ => (e, ps)
        | ⟨Except.error e, ps, _⟩ => (errEnv ("Error in handler: " ++ e), ps)
      else (errEnv "Node 58 (ETN_LoadImageBase64) not found in workflow", [])
    else (errEnv "No input image provided", [])

/-! Startup readiness probing (handler.py lines 97-117) and the main entry
(handler.py lines 262-275). -/

/-- Outcome of one GET /system_stats probe: an HTTP response with a status
code, or one of the caught exception kinds (lines 108-113). -/
inductive ProbeResponse where
  | status (code : Nat)
  | connError
  | timedOut
  | otherError (msg : String)
  deriving DecidableEq

/-- A probe counts as ready exactly when it is an HTTP response with
status code 200, handler.py line 103. -/
def probeReady : ProbeResponse → Bool
  | ProbeResponse.status code => code == 200
  | _ => false

/-- Startup failure message, handler.py line 117 (120 retries of 5 seconds). -/
def startupFailMsg : String :=
  "ComfyUI server failed to start after " ++
    toString (MAX_STARTUP_RETRIES * STARTUP_RETRY_INTERVAL) ++ " seconds"

/-- The readiness loop, handler.py lines 100-117: probe on successive
responses; a 200 returns True, anything else consumes one attempt;
exhausting the budget raises.  The second component counts probes. -/
def waitLoop (resps : Nat → ProbeResponse) : Nat → Nat → Except String Bool × Nat
  | _, 0 => (Except.error startupFailMsg, 0)
  | i, fuel + 1 =>
    if probeReady (resps i) then (Except.ok true, 1)
    else
      match waitLoop resps (i + 1) fuel with
      | (r, n) => (r, n + 1)

/-- The readiness prober, handler.py lines 97-117. -/
def wait_for_comfyui (resps : Nat → ProbeResponse) : Except String Bool × Nat :=
  waitLoop resps 0 MAX_STARTUP_RETRIES

/-- Outcome of the main entry: the process exits with a code, or proceeds to
serve requests via runpod.serverless.start. -/
inductive MainOutcome where
  | exits (code : Nat)
  | serves
  deriving DecidableEq

/-- The main entry, handler.py lines 262-275: any exception from startup or
from wait_for_comfyui is caught and the process exits with code 1. -/
def mainResult (startup : Except String Unit) (resps : Nat → ProbeResponse) :
    MainOutcome :=
  match startup with
  | Except.error _ => MainOutcome.exits 1
  | Except.ok _ =>
    match (wait_for_comfyui resps).1 with
    | Except.error _ => MainOutcome.exits 1
    | Except.ok _ => MainOutcome.serves

/-! Predicates used to state the claims. -/

/-- An envelope has the uniform shape of handler.py: success with video and
execution id, or error with a message. -/
def isEnvelopeShape (e : Envelope) : Prop :=
  (∃ v i, e = successEnv v i) ∨ (∃ m, e = errEnv m)

/-- A history record that is neither success nor error: still processing. -/
def InProgressRec (ed : ExecutionData) : Prop :=
  statusOf ed ≠ some "success" ∧ statusOf ed ≠ some "error"

/-- A poll response in which the job is absent or still in progress. -/
def AbsentOrInProgress (execId : String) (r : PollResponse) : Prop :=
  ∃ hist, r = PollResponse.ok hist ∧
    (hist.lookup execId = none ∨
      ∃ ed, hist.lookup execId = some ed ∧ InProgressRec ed)

/-- A poll response whose history does not contain the job identifier. -/
def NotContaining (execId : String) (r : PollResponse) : Prop :=
  ∃ hist, r = PollResponse.ok hist ∧ hist.lookup execId = none

/-- The submission fails: transport error, non-200 status, or a body from
which no prompt_id is extractable. -/
def SubmitFails (env : PWEnv) (wf : Workflow) : Prop :=
  match env.submit ⟨wf, wf⟩ with
  | Except.error _ => True
  | Except.ok r => r.statusCode ≠ 200 ∨ r.promptId = none

/-! Base64 round-trip lemmas. -/

/-- The alphabet map is inverted by indexOf on all sextet values. -/
theorem charToSextet_sextetToChar : ∀ n, n < 64 → charToSextet (sextetToChar n) = n := by
  decide

/-- No alphabet character is the padding character. -/
theorem sextetToChar_ne_pad : ∀ n, n < 64 → (sextetToChar n != '=') = true := by
  decide

/-- Every sextet produced from bytes below 256 is below 64. -/
theorem bytesToSextets_lt : ∀ B : List Nat, (∀ b ∈ B, b < 256) →
    ∀ s ∈ bytesToSextets B, s < 64 := by
  intro B
  induction B using bytesToSextets.induct with
  | case1 b0 b1 b2 rest ih =>
    intro h s hs
    have hb0 : b0 < 256 := h b0 (by simp)
    have hb1 : b1 < 256 := h b1 (by simp)
    have hb2 : b2 < 256 := h b2 (by simp)
    simp only [bytesToSextets, List.mem_cons] at hs
    rcases hs with rfl | rfl | rfl | rfl | hs
    · omega
    · omega
    · omega
    · omega
    · exact ih (fun b hb => h b (by simp [hb])) s hs
  | case2 b0 b1 =>
    intro h s hs
    have hb0 : b0 < 256 := h b0 (by simp)
    have hb1 : b1 < 256 := h b1 (by simp)
    simp only [bytesToSextets, List.mem_cons, List.not_mem_nil, or_false] at hs
    rcases hs with rfl | rfl | rfl <;> omega
  | case3 b0 =>
    intro h s hs
    have hb0 : b0 < 256 := h b0 (by simp)
    simp only [bytesToSextets, List.mem_cons, List.not_mem_nil, or_false] at hs
    rcases hs with rfl | rfl <;> omega
  | case4 =>
    intro _ s hs
    simp [bytesToSextets] at hs

/-- Regrouping bytes into sextets and back is the identity on byte lists. -/
theorem sextetsToBytes_bytesToSextets : ∀ B : List Nat, (∀ b ∈ B, b < 256) →
    sextetsToBytes (bytesToSextets B) = B := by
  intro B
  induction B using bytesToSextets.induct with
  | case1 b0 b1 b2 rest ih =>
    intro h
    have hb0 : b0 < 256 := h b0 (by simp)
    have hb1 : b1 < 256 := h b1 (by simp)
    have hb2 : b2 < 256 := h b2 (by simp)
    simp only [bytesToSextets, sextetsToBytes]
    rw [ih (fun b hb => h b (by simp [hb]))]
    simp only [List.cons.injEq]
    refine ⟨by omega, by omega, by omega, trivial⟩
  | case2 b0 b1 =>
    intro h
    have hb0 : b0 < 256 := h b0 (by simp)
    have hb1 : b1 < 256 := h b1 (by simp)
    simp only [bytesToSextets, sextetsToBytes]
    simp only [List.cons.injEq]
    refine ⟨by omega, by omega, trivial⟩
  | case3 b0 =>
    intro h
    have hb0 : b0 < 256 := h b0 (by simp)
    simp only [bytesToSextets, sextetsToBytes]
    simp only [List.cons.injEq]
    refine ⟨by omega, trivial⟩
  | case4 => intro _; rfl

/-- Decoding the characters of a sextet list reproduces the sextets. -/
theorem map_charToSextet_sextetToChar : ∀ L : List Nat, (∀ s ∈ L, s < 64) →
    (L.map sextetToChar).map charToSextet = L := by
  intro L
  induction L with
  | nil => intro _; rfl
  | cons s rest ih =>
    intro h
    simp only [List.map_cons]
    rw [charToSextet_sextetToChar s (h s (by simp)), ih (fun x hx => h x (by simp [hx]))]

/-- Filtering out padding leaves payload characters untouched. -/
theorem filter_pad_map_sextetToChar : ∀ L : List Nat, (∀ s ∈ L, s < 64) →
    (L.map sextetToChar).filter (fun c => c != '=') = L.map sextetToChar := by
  intro L h
  rw [List.filter_eq_self]
  intro c hc
  rw [List.mem_map] at hc
  obtain ⟨s, hs, rfl⟩ := hc
  exact sextetToChar_ne_pad s (h s hs)

/-- Filtering the padding characters yields the empty list. -/
theorem filter_pad_b64PadChars (B : List Nat) :
    (b64PadChars B).filter (fun c => c != '=') = [] := by
  unfold b64PadChars
  split <;> rfl

/-- Base64 round-trip: decoding the encoding of a byte list reproduces it. -/
theorem b64_roundtrip (B : List Nat) (hB : ∀ b ∈ B, b < 256) :
    b64decode (b64encode B) = B := by
  have hlt := bytesToSextets_lt B hB
  show b64DecodeChars (b64EncodeChars B) = B
  unfold b64DecodeChars b64EncodeChars
  rw [List.filter_append, filter_pad_map_sextetToChar _ hlt, filter_pad_b64PadChars,
    List.append_nil, map_charToSextet_sextetToChar _ hlt,
    sextetsToBytes_bytesToSextets B hB]

/-! Lemmas about single poll iterations. -/

/-- A poll whose history lacks the job, or shows it in progress, continues. -/
theorem pollIter_cont_of_absentOrInProgress (fs : String → Except String (List Nat))
    (execId : String) (r : PollResponse) (h : AbsentOrInProgress execId r) :
    pollIter fs execId r = IterResult.cont := by
  obtain ⟨hist, rfl, h2⟩ := h
  rcases h2 with h2 | ⟨ed, h2, hs, he⟩
  · simp only [pollIter, h2]
  · simp only [pollIter, h2]
    rw [if_neg (fun hc => hs hc.2), if_neg he]

/-- A poll whose history does not contain the job identifier continues. -/
theorem pollIter_cont_of_notContaining (fs : String → Except String (List Nat))
    (execId : String) (r : PollResponse) (h : NotContaining execId r) :
    pollIter fs execId r = IterResult.cont := by
  obtain ⟨hist, rfl, h2⟩ := h
  simp only [pollIter, h2]

/-- Scanning outputs in which every node "24" entry lacks a videos key finds
nothing. -/
theorem scanOutputs_notFound (fs : String → Except String (List Nat)) (execId : String) :
    ∀ outs : List (String × NodeOutput),
    (∀ p ∈ outs, p.1 = "24" → p.2.videos = none) →
    scanOutputs fs execId outs = ScanResult.notFound := by
  intro outs
  induction outs with
  | nil => intro _; rfl
  | cons p rest ih =>
    intro h
    obtain ⟨nid, nout⟩ := p
    simp only [scanOutputs]
    by_cases hn : nid = "24"
    · rw [if_pos hn]
      have hv : nout.videos = none := h (nid, nout) (by simp) hn
      rw [hv]
      exact ih (fun q hq hq24 => h q (by simp [hq]) hq24)
    · rw [if_neg hn]
      exact ih (fun q hq hq24 => h q (by simp [hq]) hq24)

/-- Scanning outputs whose first node "24" entry carries a nonempty videos
list whose file is readable returns the success envelope. -/
theorem scanOutputs_found (fs : String → Except String (List Nat)) (execId : String) :
    ∀ (outs : List (String × NodeOutput)) (nout : NodeOutput) (v : Video)
      (vs : List Video) (B : List Nat),
    outs.lookup "24" = some nout → nout.videos = some (v :: vs) →
    fs (outputPath v) = Except.ok B →
    scanOutputs fs execId outs = ScanResult.ret (successEnv (b64encode B) execId) := by
  intro outs
  induction outs with
  | nil => intro nout v vs B h _ _; simp [List.lookup] at h
  | cons p rest ih =>
    intro nout v vs B h4 h5 h6
    obtain ⟨nid, n0⟩ := p
    by_cases hn : nid = "24"
    · have hb : (("24" : String) == nid) = true := by simp [hn]
      simp only [List.lookup, hb] at h4
      injection h4 with h4
      subst h4
      simp only [scanOutputs]
      rw [if_pos hn, h5]
      simp only [h6]
    · have hb : (("24" : String) == nid) = false := by simp [Ne.symm hn]
      simp only [List.lookup, hb] at h4
      simp only [scanOutputs]
      rw [if_neg hn]
      exact ih nout v vs B h4 h5 h6

/-- A poll that observes success with a readable artifact under node "24"
returns the success envelope carrying the base64 of the artifact bytes. -/
theorem pollIter_success_found (fs : String → Except String (List Nat))
    (execId : String) (hist : List (String × ExecutionData)) (ed : ExecutionData)
    (outs : List (String × NodeOutput)) (nout : NodeOutput) (v : Video)
    (vs : List Video) (B : List Nat)
    (h1 : hist.lookup execId = some ed)
    (h2 : ed.outputs = some outs)
    (h3 : statusOf ed = some "success")
    (h4 : outs.lookup "24" = some nout)
    (h5 : nout.videos = some (v :: vs))
    (h6 : fs (outputPath v) = Except.ok B) :
    pollIter fs execId (PollResponse.ok hist) =
      IterResult.ret (successEnv (b64encode B) execId) := by
  simp only [pollIter, h1]
  rw [if_pos ⟨by rw [h2]; rfl, h3⟩, h2]
  simp only [Option.getD_some]
  rw [scanOutputs_found fs execId outs nout v vs B h4 h5 h6]

/-- A poll that observes success with an outputs mapping in which node "24"
carries no videos key returns the no-output error envelope. -/
theorem pollIter_success_noOutput (fs : String → Except String (List Nat))
    (execId : String) (hist : List (String × ExecutionData)) (ed : ExecutionData)
    (outs : List (String × NodeOutput))
    (h1 : hist.lookup execId = some ed)
    (h2 : ed.outputs = some outs)
    (h3 : statusOf ed = some "success")
    (h4 : ∀ p ∈ outs, p.1 = "24" → p.2.videos = none) :
    pollIter fs execId (PollResponse.ok hist) =
      IterResult.ret (errEnv "No output video found in results") := by
  simp only [pollIter, h1]
  rw [if_pos ⟨by rw [h2]; rfl, h3⟩, h2]
  simp only [Option.getD_some]
  rw [scanOutputs_notFound fs execId outs h4]

/-- A poll that observes an explicit error status returns the error envelope
carrying the server-supplied message. -/
theorem pollIter_error_status (fs : String → Except String (List Nat))
    (execId : String) (hist : List (String × ExecutionData)) (ed : ExecutionData)
    (M : String)
    (h1 : hist.lookup execId = some ed)
    (h2 : statusOf ed = some "error")
    (h3 : messageOf ed = some M) :
    pollIter fs execId (PollResponse.ok hist) = IterResult.ret (errEnv M) := by
  simp only [pollIter, h1]
  have hne : ¬(ed.outputs.isSome ∧ statusOf ed = some "success") := by
    rintro ⟨-, hcs⟩
    rw [h2] at hcs
    exact absurd hcs (by simp)
  rw [if_neg hne, if_pos h2, h3]
  rfl

/-! Lemmas about the polling loop. -/

/-- If the first k polls continue and poll k returns, the loop returns that
envelope after exactly k + 1 poll attempts. -/
theorem pollLoop_ret_at (fs : String → Except String (List Nat)) (execId : String)
    (resps : Nat → PollResponse) (e : Envelope) :
    ∀ (k i fuel : Nat),
    (∀ t, t < k → pollIter fs execId (resps (i + t)) = IterResult.cont) →
    pollIter fs execId (resps (i + k)) = IterResult.ret e →
    k < fuel →
    pollLoop fs execId resps i fuel = (e, k + 1) := by
  intro k
  induction k with
  | zero =>
    intro i fuel _ hret hfuel
    cases fuel with
    | zero => omega
    | succ f =>
      rw [show i + 0 = i from rfl] at hret
      simp only [pollLoop, hret]
  | succ k ih =>
    intro i fuel hpre hret hfuel
    cases fuel with
    | zero => omega
    | succ f =>
      have h0 : pollIter fs execId (resps i) = IterResult.cont := by
        have := hpre 0 (Nat.succ_pos k)
        rwa [show i + 0 = i from rfl] at this
      have hrec : pollLoop fs execId resps (i + 1) f = (e, k + 1) := by
        refine ih (i + 1) f (fun t ht => ?_) ?_ (by omega)
        · have := hpre (t + 1) (Nat.succ_lt_succ ht)
          rwa [show i + (t + 1) = i + 1 + t by omega] at this
        · rwa [show i + (k + 1) = i + 1 + k by omega] at hret
      simp only [pollLoop, h0, hrec]

/-- If every poll in the budget continues, the loop exhausts the budget and
returns the timeout envelope. -/
theorem pollLoop_all_cont (fs : String → Except String (List Nat)) (execId : String)
    (resps : Nat → PollResponse) :
    ∀ (fuel i : Nat),
    (∀ t, t < fuel → pollIter fs execId (resps (i + t)) = IterResult.cont) →
    pollLoop fs execId resps i fuel = (errEnv timeoutMsg, fuel) := by
  intro fuel
  induction fuel with
  | zero => intro i _; rfl
  | succ f ih =>
    intro i h
    have h0 : pollIter fs execId (resps i) = IterResult.cont := by
      have := h 0 (Nat.succ_pos f)
      rwa [show i + 0 = i from rfl] at this
    have hrec : pollLoop fs execId resps (i + 1) f = (errEnv timeoutMsg, f) := by
      refine ih (i + 1) (fun t ht => ?_)
      have := h (t + 1) (Nat.succ_lt_succ ht)
      rwa [show i + (t + 1) = i + 1 + t by omega] at this
    simp only [pollLoop, h0, hrec]

/-! Lemmas about the readiness loop. -/

/-- If the first k probes are not ready and probe k answers 200, the loop
returns success after exactly k + 1 probe attempts. -/
theorem waitLoop_ready_at (resps : Nat → ProbeResponse) :
    ∀ (k i fuel : Nat),
    (∀ t, t < k → probeReady (resps (i + t)) = false) →
    probeReady (resps (i + k)) = true →
    k < fuel →
    waitLoop resps i fuel = (Except.ok true, k + 1) := by
  intro k
  induction k with
  | zero =>
    intro i fuel _ hret hfuel
    cases fuel with
    | zero => omega
    | succ f =>
      rw [show i + 0 = i from rfl] at hret
      simp [waitLoop, hret]
  | succ k ih =>
    intro i fuel hpre hret hfuel
    cases fuel with
    | zero => omega
    | succ f =>
      have h0 : probeReady (resps i) = false := by
        have := hpre 0 (Nat.succ_pos k)
        rwa [show i + 0 = i from rfl] at this
      have hrec : waitLoop resps (i + 1) f = (Except.ok true, k + 1) := by
        refine ih (i + 1) f (fun t ht => ?_) ?_ (by omega)
        · have := hpre (t + 1) (Nat.succ_lt_succ ht)
          rwa [show i + (t + 1) = i + 1 + t by omega] at this
        · rwa [show i + (k + 1) = i + 1 + k by omega] at hret
      simp [waitLoop, h0, hrec]

/-- If no probe in the budget is ready, the loop exhausts the budget and
raises the startup failure. -/
theorem waitLoop_never_ready (resps : Nat → ProbeResponse) :
    ∀ (fuel i : Nat),
    (∀ t, t < fuel → probeReady (resps (i + t)) = false) →
    waitLoop resps i fuel = (Except.error startupFailMsg, fuel) := by
  intro fuel
  induction fuel with
  | zero => intro i _; rfl
  | succ f ih =>
    intro i h
    have h0 : probeReady (resps i) = false := by
      have := h 0 (Nat.succ_pos f)
      rwa [show i + 0 = i from rfl] at this
    have hrec : waitLoop resps (i + 1) f = (Except.error startupFailMsg, f) := by
      refine ih (i + 1) (fun t ht => ?_)
      have := h (t + 1) (Nat.succ_lt_succ ht)
      rwa [show i + (t + 1) = i + 1 + t by omega] at this
    simp [waitLoop, h0, hrec]

/-! Lemmas about process_workflow and the shape of envelopes. -/

/-- With a successful submission, process_workflow defers to the polling
loop: one POST, the loop envelope, the loop poll count. -/
theorem process_workflow_poll (env : PWEnv) (wf : Workflow) (resp : SubmitResponse)
    (execId : String) (e : Envelope) (n : Nat)
    (hs : env.submit ⟨wf, wf⟩ = Except.ok resp)
    (h200 : resp.statusCode = 200)
    (hid : resp.promptId = some execId)
    (hp : pollLoop env.fs execId env.polls 0 MAX_PROCESSING_RETRIES = (e, n)) :
    process_workflow env wf = ⟨Except.ok e, [⟨wf, wf⟩], n⟩ := by
  unfold process_workflow
  simp only [hs]
  rw [if_neg (fun hne => hne h200)]
  simp only [hid, hp]

/-- Every envelope produced by scanning outputs has the uniform shape. -/
theorem scanOutputs_shape (fs : String → Except String (List Nat)) (execId : String) :
    ∀ (outs : List (String × NodeOutput)) (e : Envelope),
    scanOutputs fs execId outs = ScanResult.ret e → isEnvelopeShape e := by
  intro outs
  induction outs with
  | nil => intro e h; simp [scanOutputs] at h
  | cons p rest ih =>
    intro e h
    obtain ⟨nid, nout⟩ := p
    simp only [scanOutputs] at h
    split at h
    · split at h
      · split at h
        · injection h with h
          exact Or.inl ⟨_, _, h.symm⟩
        · injection h with h
          exact Or.inr ⟨_, h.symm⟩
      · exact absurd h (by simp)
      · exact ih e h
    · exact ih e h

/-- Every envelope returned by a poll iteration has the uniform shape. -/
theorem pollIter_shape (fs : String → Except String (List Nat)) (execId : String)
    (resp : PollResponse) (e : Envelope)
    (h : pollIter fs execId resp = IterResult.ret e) : isEnvelopeShape e := by
  unfold pollIter at h
  split at h
  · exact absurd h (by simp)
  · split at h
    · exact absurd h (by simp)
    · split at h
      · split at h
        · next heq =>
          injection h with h
          exact h ▸ scanOutputs_shape fs execId _ _ heq
        · exact absurd h (by simp)
        · injection h with h
          exact Or.inr ⟨_, h.symm⟩
      · split at h
        · injection h with h
          exact Or.inr ⟨_, h.symm⟩
        · exact absurd h (by simp)

/-- Every envelope produced by the polling loop has the uniform shape. -/
theorem pollLoop_shape (fs : String → Except String (List Nat)) (execId : String)
    (resps : Nat → PollResponse) :
    ∀ (fuel i : Nat), isEnvelopeShape (pollLoop fs execId resps i fuel).1 := by
  intro fuel
  induction fuel with
  | zero => intro i; exact Or.inr ⟨timeoutMsg, rfl⟩
  | succ f ih =>
    intro i
    simp only [pollLoop]
    split
    · next e heq => exact pollIter_shape fs execId (resps i) e heq
    · rcases hpl : pollLoop fs execId resps (i + 1) f with ⟨e, n⟩
      have := ih (i + 1)
      rw [hpl] at this
      simpa [hpl] using this

/-- Every envelope process_workflow returns (rather than raises) has the
uniform shape. -/
theorem process_workflow_ok_shape (env : PWEnv) (wf : Workflow) (e : Envelope)
    (h : (process_workflow env wf).result = Except.ok e) : isEnvelopeShape e := by
  simp only [process_workflow] at h
  split at h
  · exact absurd h (by simp)
  · split at h
    · exact absurd h (by simp)
    · split at h
      · exact absurd h (by simp)
      · next execId _ =>
        rcases hpl : pollLoop env.fs execId env.polls 0 MAX_PROCESSING_RETRIES with ⟨e0, n⟩
        rw [hpl] at h
        simp only at h
        injection h with h
        have := pollLoop_shape env.fs execId env.polls MAX_PROCESSING_RETRIES 0
        rw [hpl] at this
        exact h ▸ this

/-! Claim theorems. -/

/-- C1: for every input event and every environment, the request handler
returns a structured value (it is a total function, never propagating an
exception), and the value is either the success envelope or the single
error-envelope shape, a mapping with status "error" and a string message,
so all failure kinds share one envelope shape. -/
theorem handler_returns_envelope (henv : HandlerEnv) (ev : Event) :
    isEnvelopeShape (handler henv ev).1 := by
  simp only [handler]
  split
  · exact Or.inr ⟨_, rfl⟩
  · split
    · split
      · split
        · next e ps x heq =>
          exact process_workflow_ok_shape henv.penv _ e (by rw [heq])
        · exact Or.inr ⟨_, rfl⟩
      · exact Or.inr ⟨_, rfl⟩
    · exact Or.inr ⟨_, rfl⟩

/-- C3: an event that supplies an input image together with a (truthy)
workflow mapping lacking the designated input node "58" makes the handler
return the error envelope naming the missing node, and no POST is ever
issued to the submission endpoint. -/
theorem handler_missing_node58_no_post (henv : HandlerEnv) (ev : Event)
    (himg : ev.image ≠ "")
    (hwf : truthyWF ev.workflow = true)
    (h58 : (ev.workflow.getD []).lookup "58" = none) :
    handler henv ev =
      (errEnv "Node 58 (ETN_LoadImageBase64) not found in workflow", []) := by
  simp only [handler]
  split
  · next e heq =>
    rw [if_pos hwf] at heq
    exact absurd heq (by simp)
  · next wd heq =>
    rw [if_pos hwf] at heq
    injection heq with heq
    subst heq
    rw [if_pos himg, if_neg (by rw [h58]; simp)]

/-- C3 witness: a concrete event with an image and a workflow without node
"58" yields the missing-node envelope and an empty POST list. -/
theorem handler_missing_node58_no_post_witness :
    handler
      ⟨Except.error "no file",
        ⟨fun _ => Except.error "down", fun _ => PollResponse.exn,
          fun _ => Except.error "io"⟩⟩
      ⟨some [("1", ⟨[]⟩)], "img"⟩ =
      (errEnv "Node 58 (ETN_LoadImageBase64) not found in workflow", []) :=
  handler_missing_node58_no_post _ _ (by decide) rfl rfl

/-- C10: an event whose input carries the empty-string image (the Python
default when the key is absent) makes the handler return the
no-input-image error envelope without submitting any job, whenever a
truthy workflow was supplied or the default workflow loads; because the
image check runs after default-workflow loading, when both are absent a
default-workflow load failure is reported instead. -/
theorem handler_no_image (henv : HandlerEnv) (ev : Event)
    (himg : ev.image = "") :
    (handler henv ev).2 = [] ∧
    ((truthyWF ev.workflow = true ∨ (∃ w, henv.defaultWorkflow = Except.ok w)) →
      handler henv ev = (errEnv "No input image provided", [])) ∧
    (∀ e, truthyWF ev.workflow = false → henv.defaultWorkflow = Except.error e →
      handler henv ev =
        (errEnv ("Error loading default workflow: " ++ e), [])) := by
  have hni : ¬(ev.image ≠ "") := fun hne => hne himg
  refine ⟨?_, ?_, ?_⟩
  · simp only [handler]
    split
    · rfl
    · rw [if_neg hni]
  · intro hor
    simp only [handler]
    split
    · next e heq =>
      exfalso
      rcases hor with hw | ⟨w, hd⟩
      · rw [if_pos hw] at heq
        exact absurd heq (by simp)
      · by_cases hw2 : truthyWF ev.workflow = true
        · rw [if_pos hw2] at heq
          exact absurd heq (by simp)
        · rw [if_neg hw2, hd] at heq
          exact absurd heq (by simp)
    · rw [if_neg hni]
  · intro e hw hd
    simp only [handler]
    split
    · next e0 heq =>
      rw [if_neg (by simp [hw]), hd] at heq
      injection heq with heq
      subst heq
      rfl
    · next wd heq =>
      rw [if_neg (by simp [hw]), hd] at heq
      exact absurd heq (by simp)

/-- C10 witness: with no image and a load-failing default workflow the load
error is reported; with no image but a workflow supplied the no-input-image
envelope is returned; no POST is issued in either case. -/
theorem handler_no_image_witness :
    handler
      ⟨Except.error "boom",
        ⟨fun _ => Except.error "down", fun _ => PollResponse.exn,
          fun _ => Except.error "io"⟩⟩
      ⟨none, ""⟩ =
      (errEnv ("Error loading default workflow: " ++ "boom"), []) ∧
    handler
      ⟨Except.error "boom",
        ⟨fun _ => Except.error "down", fun _ => PollResponse.exn,
          fun _ => Except.error "io"⟩⟩
      ⟨some [("58", ⟨[]⟩)], ""⟩ =
      (errEnv "No input image provided", []) :=
  ⟨(handler_no_image _ ⟨none, ""⟩ rfl).2.2 "boom" rfl rfl,
    (handler_no_image _ ⟨some [("58", ⟨[]⟩)], ""⟩ rfl).2.1 (Or.inl rfl)⟩

/-- C7: when no health probe ever answers HTTP 200, the readiness prober
performs exactly MAX_STARTUP_RETRIES probe attempts, then raises the
startup-failure exception, and the main entry exits the process with
status 1 instead of serving requests. -/
theorem wait_never_ready_fatal (resps : Nat → ProbeResponse)
    (st : Except String Unit)
    (h : ∀ i, probeReady (resps i) = false) :
    wait_for_comfyui resps = (Except.error startupFailMsg, MAX_STARTUP_RETRIES) ∧
    mainResult st resps = MainOutcome.exits 1 := by
  have hw : wait_for_comfyui resps =
      (Except.error startupFailMsg, MAX_STARTUP_RETRIES) :=
    waitLoop_never_ready resps MAX_STARTUP_RETRIES 0 (fun t _ => h (0 + t))
  refine ⟨hw, ?_⟩
  unfold mainResult
  cases st with
  | error e => rfl
  | ok u => rw [hw]

/-- C7 witness: connection-refused on every probe exhausts the budget of
120 attempts and the process exits with code 1. -/
theorem wait_never_ready_fatal_witness :
    wait_for_comfyui (fun _ => ProbeResponse.connError) =
      (Except.error startupFailMsg, MAX_STARTUP_RETRIES) ∧
    mainResult (Except.ok ()) (fun _ => ProbeResponse.connError) =
      MainOutcome.exits 1 :=
  wait_never_ready_fatal _ _ (fun _ => rfl)

/-- C8: when the first HTTP-200 probe answer arrives at 0-based attempt
index k within the budget (so at the (k+1)-st attempt), and every earlier
probe is not ready (connection refused, timeout, other transport error, or
a non-200 status each consume one attempt), the readiness prober returns
success exactly once, after exactly k + 1 probes, performing none after. -/
theorem wait_first_ready (resps : Nat → ProbeResponse) (k : Nat)
    (hk : k < MAX_STARTUP_RETRIES)
    (hpre : ∀ t, t < k → probeReady (resps t) = false)
    (hready : probeReady (resps k) = true) :
    wait_for_comfyui resps = (Except.ok true, k + 1) :=
  waitLoop_ready_at resps k 0 MAX_STARTUP_RETRIES
    (fun t ht => by simpa using hpre t ht) (by simpa using hready) hk

/-- C8 witness: a timeout on the first probe and a 200 on the second yields
success after exactly two probes. -/
theorem wait_first_ready_witness :
    wait_for_comfyui
      (fun t => if t = 0 then ProbeResponse.timedOut else ProbeResponse.status 200) =
      (Except.ok true, 2) :=
  wait_first_ready _ 1 (by decide)
    (fun t ht => by interval_cases t; rfl) rfl

/-- C2 counterexample: the claim fails when the success status is reported
but the record carries no outputs key at all, so the expected output node
"24" is absent.  The poll iteration then continues polling (handler.py line
165 requires the outputs key before entering the success branch), instead
of returning the no-output error envelope; with that response repeated the
loop keeps polling until the timeout envelope after the full budget. -/
theorem pollIter_success_without_outputs_continues :
    statusOf ⟨none, some ⟨some "success", none⟩⟩ = some "success" ∧
    (⟨none, some ⟨some "success", none⟩⟩ : ExecutionData).outputs = none ∧
    pollIter (fun _ => Except.error "io") "job"
      (PollResponse.ok [("job", ⟨none, some ⟨some "success", none⟩⟩)]) =
      IterResult.cont ∧
    pollLoop (fun _ => Except.error "io") "job"
      (fun _ => PollResponse.ok [("job", ⟨none, some ⟨some "success", none⟩⟩)])
      0 MAX_PROCESSING_RETRIES = (errEnv timeoutMsg, MAX_PROCESSING_RETRIES) :=
  ⟨rfl, rfl, by decide,
    pollLoop_all_cont _ "job" _ MAX_PROCESSING_RETRIES 0 (fun t _ => by decide)⟩

/-- C2 (amended): when a poll observes the job with status "success" and an
outputs mapping present in which every node-"24" entry lacks a videos
artifact list, process_workflow returns the no-output error envelope
immediately and terminally: exactly k + 1 polls happen when this is the
first returning poll.  (When the outputs key itself is absent, the loop
continues polling instead — see the counterexample.) -/
theorem process_workflow_success_missing_output_terminal
    (env : PWEnv) (wf : Workflow) (resp : SubmitResponse) (execId : String)
    (hist : List (String × ExecutionData)) (ed : ExecutionData)
    (outs : List (String × NodeOutput)) (k : Nat)
    (hs : env.submit ⟨wf, wf⟩ = Except.ok resp)
    (h200 : resp.statusCode = 200)
    (hid : resp.promptId = some execId)
    (hk : k < MAX_PROCESSING_RETRIES)
    (hpre : ∀ t, t < k → pollIter env.fs execId (env.polls t) = IterResult.cont)
    (h0 : env.polls k = PollResponse.ok hist)
    (h1 : hist.lookup execId = some ed)
    (h2 : ed.outputs = some outs)
    (h3 : statusOf ed = some "success")
    (h4 : ∀ p ∈ outs, p.1 = "24" → p.2.videos = none) :
    process_workflow env wf =
      ⟨Except.ok (errEnv "No output video found in results"), [⟨wf, wf⟩], k + 1⟩ := by
  refine process_workflow_poll env wf resp execId _ _ hs h200 hid ?_
  refine pollLoop_ret_at env.fs execId env.polls _ k 0 MAX_PROCESSING_RETRIES
    (fun t ht => by simpa using hpre t ht) ?_ hk
  rw [Nat.zero_add, h0]
  exact pollIter_success_noOutput env.fs execId hist ed outs h1 h2 h3 h4

/-- C2 witness: a first poll observing success with an outputs mapping whose
node "24" lacks the videos key returns the no-output envelope after one
poll. -/
theorem process_workflow_success_missing_output_terminal_witness :
    process_workflow
      ⟨fun _ => Except.ok ⟨200, "", some "job"⟩,
        fun _ => PollResponse.ok
          [("job", ⟨some [("24", ⟨none⟩)], some ⟨some "success", none⟩⟩)],
        fun _ => Except.error "io"⟩ [] =
      ⟨Except.ok (errEnv "No output video found in results"), [⟨[], []⟩], 1⟩ :=
  process_workflow_success_missing_output_terminal _ [] ⟨200, "", some "job"⟩ "job"
    [("job", ⟨some [("24", ⟨none⟩)], some ⟨some "success", none⟩⟩)]
    ⟨some [("24", ⟨none⟩)], some ⟨some "success", none⟩⟩
    [("24", ⟨none⟩)] 0 rfl rfl rfl (by decide)
    (fun t ht => absurd ht (by omega)) rfl rfl rfl rfl (by decide)

/-- C4: when the history flips from absent or in-progress for the first k
polls to success at poll k with a valid artifact under node "24" whose file
holds bytes B, process_workflow stops at that first success poll (k + 1
polls in total) and returns the success envelope with execution id and the
base64 encoding of B, and base64-decoding that video field reproduces B
exactly. -/
theorem process_workflow_success_roundtrip
    (env : PWEnv) (wf : Workflow) (resp : SubmitResponse) (execId : String)
    (hist : List (String × ExecutionData)) (ed : ExecutionData)
    (outs : List (String × NodeOutput)) (nout : NodeOutput) (v : Video)
    (vs : List Video) (B : List Nat) (k : Nat)
    (hs : env.submit ⟨wf, wf⟩ = Except.ok resp)
    (h200 : resp.statusCode = 200)
    (hid : resp.promptId = some execId)
    (hk : k < MAX_PROCESSING_RETRIES)
    (hpre : ∀ t, t < k → AbsentOrInProgress execId (env.polls t))
    (h0 : env.polls k = PollResponse.ok hist)
    (h1 : hist.lookup execId = some ed)
    (h2 : ed.outputs = some outs)
    (h3 : statusOf ed = some "success")
    (h4 : outs.lookup "24" = some nout)
    (h5 : nout.videos = some (v :: vs))
    (h6 : env.fs (outputPath v) = Except.ok B)
    (hB : ∀ b ∈ B, b < 256) :
    process_workflow env wf =
      ⟨Except.ok (successEnv (b64encode B) execId), [⟨wf, wf⟩], k + 1⟩ ∧
    b64decode (b64encode B) = B := by
  refine ⟨process_workflow_poll env wf resp execId _ _ hs h200 hid ?_,
    b64_roundtrip B hB⟩
  refine pollLoop_ret_at env.fs execId env.polls _ k 0 MAX_PROCESSING_RETRIES
    (fun t ht => by
      have := pollIter_cont_of_absentOrInProgress env.fs execId _ (hpre t ht)
      simpa using this) ?_ hk
  rw [Nat.zero_add, h0]
  exact pollIter_success_found env.fs execId hist ed outs nout v vs B h1 h2 h3 h4 h5 h6

/-- C4 witness: history absent on poll 0, in progress on poll 1, success on
poll 2 with bytes [104, 105]; three polls happen and the round-trip holds. -/
theorem process_workflow_success_roundtrip_witness :
    process_workflow
      ⟨fun _ => Except.ok ⟨200, "", some "job"⟩,
        fun t =>
          if t = 0 then PollResponse.ok []
          else if t = 1 then
            PollResponse.ok [("job", ⟨none, some ⟨some "running", none⟩⟩)]
          else
            PollResponse.ok
              [("job",
                ⟨some [("24", ⟨some [⟨"out.mp4"⟩]⟩)], some ⟨some "success", none⟩⟩)],
        fun _ => Except.ok [104, 105]⟩ [] =
      ⟨Except.ok (successEnv (b64encode [104, 105]) "job"), [⟨[], []⟩], 3⟩ ∧
    b64decode (b64encode [104, 105]) = [104, 105] :=
  process_workflow_success_roundtrip _ [] ⟨200, "", some "job"⟩ "job"
    [("job", ⟨some [("24", ⟨some [⟨"out.mp4"⟩]⟩)], some ⟨some "success", none⟩⟩)]
    ⟨some [("24", ⟨some [⟨"out.mp4"⟩]⟩)], some ⟨some "success", none⟩⟩
    [("24", ⟨some [⟨"out.mp4"⟩]⟩)] ⟨some [⟨"out.mp4"⟩]⟩ ⟨"out.mp4"⟩ [] [104, 105] 2
    rfl rfl rfl (by decide)
    (fun t ht => by
      match t, ht with
      | 0, _ => exact ⟨[], rfl, Or.inl rfl⟩
      | 1, _ =>
        exact ⟨[("job", ⟨none, some ⟨some "running", none⟩⟩)], rfl,
          Or.inr ⟨⟨none, some ⟨some "running", none⟩⟩, rfl, by decide, by decide⟩⟩)
    rfl rfl rfl rfl rfl rfl rfl (by decide)

/-- C5: when the first k polls continue and poll k observes the job with
status "error" carrying message M, process_workflow returns the error
envelope with exactly that message after exactly k + 1 polls, performing
no further polls. -/
theorem process_workflow_error_status_terminal
    (env : PWEnv) (wf : Workflow) (resp : SubmitResponse) (execId : String)
    (hist : List (String × ExecutionData)) (ed : ExecutionData) (M : String)
    (k : Nat)
    (hs : env.submit ⟨wf, wf⟩ = Except.ok resp)
    (h200 : resp.statusCode = 200)
    (hid : resp.promptId = some execId)
    (hk : k < MAX_PROCESSING_RETRIES)
    (hpre : ∀ t, t < k → pollIter env.fs execId (env.polls t) = IterResult.cont)
    (h0 : env.polls k = PollResponse.ok hist)
    (h1 : hist.lookup execId = some ed)
    (h2 : statusOf ed = some "error")
    (h3 : messageOf ed = some M) :
    process_workflow env wf = ⟨Except.ok (errEnv M), [⟨wf, wf⟩], k + 1⟩ := by
  refine process_workflow_poll env wf resp execId _ _ hs h200 hid ?_
  refine pollLoop_ret_at env.fs execId env.polls _ k 0 MAX_PROCESSING_RETRIES
    (fun t ht => by simpa using hpre t ht) ?_ hk
  rw [Nat.zero_add, h0]
  exact pollIter_error_status env.fs execId hist ed M h1 h2 h3

/-- C5 witness: a transport hiccup on poll 0 and an error record with
message "boom" on poll 1 yields the error envelope after two polls. -/
theorem process_workflow_error_status_terminal_witness :
    process_workflow
      ⟨fun _ => Except.ok ⟨200, "", some "job"⟩,
        fun t =>
          if t = 0 then PollResponse.exn
          else PollResponse.ok [("job", ⟨none, some ⟨some "error", some "boom"⟩⟩)],
        fun _ => Except.error "io"⟩ [] =
      ⟨Except.ok (errEnv "boom"), [⟨[], []⟩], 2⟩ :=
  process_workflow_error_status_terminal _ [] ⟨200, "", some "job"⟩ "job"
    [("job", ⟨none, some ⟨some "error", some "boom"⟩⟩)]
    ⟨none, some ⟨some "error", some "boom"⟩⟩ "boom" 1
    rfl rfl rfl (by decide)
    (fun t ht => by interval_cases t; rfl) rfl rfl rfl rfl

/-- C6: when the submitted job identifier never appears in any history
response, process_workflow performs exactly MAX_PROCESSING_RETRIES polls
and then returns (never raises) the timeout error envelope. -/
theorem process_workflow_never_found_timeout
    (env : PWEnv) (wf : Workflow) (resp : SubmitResponse) (execId : String)
    (hs : env.submit ⟨wf, wf⟩ = Except.ok resp)
    (h200 : resp.statusCode = 200)
    (hid : resp.promptId = some execId)
    (hnc : ∀ t, NotContaining execId (env.polls t)) :
    process_workflow env wf =
      ⟨Except.ok (errEnv timeoutMsg), [⟨wf, wf⟩], MAX_PROCESSING_RETRIES⟩ := by
  refine process_workflow_poll env wf resp execId _ _ hs h200 hid ?_
  exact pollLoop_all_cont env.fs execId env.polls MAX_PROCESSING_RETRIES 0
    (fun t _ => pollIter_cont_of_notContaining env.fs execId _ (hnc (0 + t)))

/-- C6 witness: an always-empty history exhausts the budget of 600 polls
and returns the timeout envelope. -/
theorem process_workflow_never_found_timeout_witness :
    process_workflow
      ⟨fun _ => Except.ok ⟨200, "", some "job"⟩,
        fun _ => PollResponse.ok [], fun _ => Except.error "io"⟩ [] =
      ⟨Except.ok (errEnv timeoutMsg), [⟨[], []⟩], MAX_PROCESSING_RETRIES⟩ :=
  process_workflow_never_found_timeout _ [] ⟨200, "", some "job"⟩ "job"
    rfl rfl rfl (fun _ => ⟨[], rfl, rfl⟩)

/-- C9: every call of process_workflow issues exactly one POST to the
submission endpoint, carrying the workflow and its echo; and when the
submission fails (transport error, non-200 status, or no extractable job
identifier), the result is an immediate fatal error with no polling and no
resubmission. -/
theorem process_workflow_posts_once_submit_fatal (env : PWEnv) (wf : Workflow) :
    (process_workflow env wf).posts = [⟨wf, wf⟩] ∧
    (SubmitFails env wf →
      (∃ m, (process_workflow env wf).result = Except.error m) ∧
      (process_workflow env wf).polls = 0) := by
  constructor
  · simp only [process_workflow]
    split
    · rfl
    · split
      · rfl
      · split
        · rfl
        · next execId heq =>
          rcases hpl : pollLoop env.fs execId env.polls 0 MAX_PROCESSING_RETRIES
            with ⟨e, n⟩
          simp only [hpl]
  · intro hf
    unfold SubmitFails at hf
    rcases hsub : env.submit ⟨wf, wf⟩ with e | r
    · simp only [process_workflow, hsub]
      exact ⟨⟨_, rfl⟩, by simp⟩
    · rw [hsub] at hf
      simp only at hf
      rcases hf with h200 | hidn
      · simp only [process_workflow, hsub]
        rw [if_pos h200]
        exact ⟨⟨_, rfl⟩, by simp⟩
      · by_cases h200 : r.statusCode ≠ 200
        · simp only [process_workflow, hsub]
          rw [if_pos h200]
          exact ⟨⟨_, rfl⟩, by simp⟩
        · simp only [process_workflow, hsub]
          rw [if_neg h200]
          simp only [hidn]
          exact ⟨⟨_, rfl⟩, by simp⟩

/-- C9 witness: a 500 submission response yields one POST, a raised
submission error, and zero polls. -/
theorem process_workflow_posts_once_submit_fatal_witness :
    (process_workflow
      ⟨fun _ => Except.ok ⟨500, "bad", none⟩,
        fun _ => PollResponse.exn, fun _ => Except.error "io"⟩ []).posts =
      [⟨[], []⟩] ∧
    (∃ m, (process_workflow
      ⟨fun _ => Except.ok ⟨500, "bad", none⟩,
        fun _ => PollResponse.exn, fun _ => Except.error "io"⟩ []).result =
      Except.error m) ∧
    (process_workflow
      ⟨fun _ => Except.ok ⟨500, "bad", none⟩,
        fun _ => PollResponse.exn, fun _ => Except.error "io"⟩ []).polls = 0 := by
  have h := process_workflow_posts_once_submit_fatal
    ⟨fun _ => Except.ok ⟨500, "bad", none⟩,
      fun _ => PollResponse.exn, fun _ => Except.error "io"⟩ []
  exact ⟨h.1, (h.2 (Or.inl (by decide))).1, (h.2 (Or.inl (by decide))).2⟩
